import Mathlib

/-!
Verification of the DvP settlement orchestrator (`src/dvp-engine.ts`,
`src/types.ts`).

The engine is a thin client over an external token program: it assembles
instruction lists, derives associated token account addresses, computes two
sizes (metadata byte length and rent-exempt balance), and submits
transactions.  We embed the instruction-assembly logic shallowly:

* `Instruction` is an inductive covering exactly the instruction
  constructors the engine uses; a `Transaction` is an instruction list
  plus the signer list passed to the submission call.
* External collaborators are modelled explicitly: the network's
  rent-calculation query is an arbitrary function parameter `rent`, the
  metadata serializer's byte length (`pack(...).length`) is `packLen`
  following the serializer's documented layout, and the host runtime's
  number/date renderings (`Number.prototype.toString`,
  `Date.prototype.toISOString`) are modelled case by case.
* For the gating operations (`whitelist`, `removeFromWhitelist`) the
  relevant ledger state — which holding accounts exist and whether each is
  frozen — is threaded explicitly, with account creation and freeze/thaw
  following the external engine's documented semantics.
-/

/-- Addresses.  `fresh n` stands for an independently generated key
(issuer, investor, settlement agent, mints, program ids); `ata` is the
deterministic associated-token-account derivation from mint, owner and
program id, which the real derivation guarantees to be collision-free. -/
inductive PublicKey where
  | fresh (n : Nat) : PublicKey
  | ata (mint : PublicKey) (owner : PublicKey) (programId : PublicKey) : PublicKey
deriving DecidableEq

/-- A signing identity; only its public half matters for the assembled
transactions. -/
structure Keypair where
  publicKey : PublicKey
deriving DecidableEq

def TOKEN_2022_PROGRAM_ID : PublicKey := PublicKey.fresh 0

def TOKEN_PROGRAM_ID : PublicKey := PublicKey.fresh 1

/-- `getAssociatedTokenAddress` from the external library: a pure,
deterministic derivation of the holding-account address from mint, owner
and token-program id (the engine always passes `allowOwnerOffCurve =
false`). -/
def getAssociatedTokenAddress (mint : PublicKey) (owner : PublicKey)
    (allowOwnerOffCurve : Bool) (programId : PublicKey) : PublicKey :=
  PublicKey.ata mint owner programId

/-- The account states used by the default-account-state extension. -/
inductive AccountState where
  | uninitializedState
  | frozen
  | thawedState
deriving DecidableEq

/-- The instructions the engine assembles (each corresponds to one
library instruction-builder call in `dvp-engine.ts`). -/
inductive Instruction where
  | createAccount (fromPubkey : PublicKey) (newAccountPubkey : PublicKey)
      (space : Nat) (lamports : Nat) (programId : PublicKey)
  | initMetadataPointer (mint : PublicKey) (authority : PublicKey)
      (metadataAddress : PublicKey) (programId : PublicKey)
  | initDefaultAccountState (mint : PublicKey) (state : AccountState)
      (programId : PublicKey)
  | initMint (mint : PublicKey) (decimals : Nat) (mintAuthority : PublicKey)
      (freezeAuthority : Option PublicKey) (programId : PublicKey)
  | initMetadata (programId : PublicKey) (mint : PublicKey)
      (metadata : PublicKey) (name : String) (symbol : String) (uri : String)
      (mintAuthority : PublicKey) (updateAuthority : PublicKey)
  | updateField (programId : PublicKey) (metadata : PublicKey)
      (updateAuthority : PublicKey) (field : String) (value : String)
  | transferChecked (source : PublicKey) (mint : PublicKey)
      (destination : PublicKey) (owner : PublicKey) (amount : Nat)
      (decimals : Nat) (programId : PublicKey)
deriving DecidableEq

/-- A submitted transaction: the instruction list in assembly order plus
the signer list handed to `sendAndConfirmTransaction`. -/
structure Transaction where
  instructions : List Instruction
  signers : List PublicKey
deriving DecidableEq

/-- `DvPParams` from `types.ts`.  Quantities are whole human-scale units. -/
structure DvPParams where
  bondMint : PublicKey
  usdcMint : PublicKey
  bondAmount : Nat
  usdcAmount : Nat
  issuer : PublicKey
  investor : PublicKey
deriving DecidableEq

/-- `DvPResult` from `types.ts`.  The signature and timestamp are values
produced by external collaborators (confirmation and the clock), so the
embedding receives them as parameters. -/
structure DvPResult where
  signature : Nat
  bondAmount : Nat
  usdcAmount : Nat
  timestamp : Nat
  bondsSent : Bool
  usdcReceived : Bool
deriving DecidableEq

/-- `DvPEngine.createTransferCheckedIx`: a transfer-checked instruction
whose authorizing owner is the settlement agent (delegated authority). -/
def createTransferCheckedIx (settlementAgent : Keypair) (source : PublicKey)
    (mint : PublicKey) (destination : PublicKey) (amount : Nat)
    (decimals : Nat) (programId : PublicKey) : Instruction :=
  Instruction.transferChecked source mint destination
    settlementAgent.publicKey amount decimals programId

/-- `DvPEngine.executeDvP`: derives the four associated token accounts,
assembles the two-leg atomic transaction, and (on successful submission,
whose confirmation signature `sig` and clock reading `now` come from the
external collaborators) returns the result record. -/
def executeDvP (settlementAgent : Keypair) (sig : Nat) (now : Nat)
    (params : DvPParams) : Transaction × DvPResult :=
  let issuerBondAccount :=
    getAssociatedTokenAddress params.bondMint params.issuer false
      TOKEN_2022_PROGRAM_ID
  let investorBondAccount :=
    getAssociatedTokenAddress params.bondMint params.investor false
      TOKEN_2022_PROGRAM_ID
  let investorUSDCAccount :=
    getAssociatedTokenAddress params.usdcMint params.investor false
      TOKEN_PROGRAM_ID
  let issuerUSDCAccount :=
    getAssociatedTokenAddress params.usdcMint params.issuer false
      TOKEN_PROGRAM_ID
  let transaction : Transaction :=
    { instructions :=
        [createTransferCheckedIx settlementAgent issuerBondAccount
            params.bondMint investorBondAccount params.bondAmount 0
            TOKEN_2022_PROGRAM_ID,
          createTransferCheckedIx settlementAgent investorUSDCAccount
            params.usdcMint issuerUSDCAccount (params.usdcAmount * 1000000) 6
            TOKEN_PROGRAM_ID],
      signers := [settlementAgent.publicKey] }
  (transaction,
    { signature := sig
      bondAmount := params.bondAmount
      usdcAmount := params.usdcAmount
      timestamp := now
      bondsSent := true
      usdcReceived := true })

/-- A delegate-approval directive as submitted by the external `approve`
call: account, delegate, owning authority, base-unit ceiling, token
program, and the keypairs that sign the submission. -/
structure ApproveAction where
  account : PublicKey
  delegate : PublicKey
  owner : PublicKey
  amount : Nat
  programId : PublicKey
  signers : List PublicKey
deriving DecidableEq

/-- `DvPEngine.delegateAuthority`: scales the human-scale quantity by
ten-to-the-precision and submits a single approval naming the settlement
agent as delegate, signed by the owning participant. -/
def delegateAuthority (settlementAgent : Keypair) (owner : Keypair)
    (tokenAccount : PublicKey) (amount : Nat) (decimals : Nat)
    (programId : PublicKey) : List ApproveAction :=
  let amountWithDecimals := amount * 10 ^ decimals
  [{ account := tokenAccount
     delegate := settlementAgent.publicKey
     owner := owner.publicKey
     amount := amountWithDecimals
     programId := programId
     signers := [owner.publicKey] }]

/-- C1: executeDvP builds a single transaction with exactly two transfer
directives — bond quantity unscaled at precision 0 from the issuer's to
the investor's bond account, and currency quantity times ten to the sixth
at precision 6 from the investor's to the issuer's currency account —
both authorized by the settlement agent, and the transaction is signed
solely by the settlement agent. -/
theorem executeDvP_two_transfer_directives (settlementAgent : Keypair)
    (sig now : Nat) (params : DvPParams) :
    (executeDvP settlementAgent sig now params).1.instructions =
      [Instruction.transferChecked
          (getAssociatedTokenAddress params.bondMint params.issuer false
            TOKEN_2022_PROGRAM_ID)
          params.bondMint
          (getAssociatedTokenAddress params.bondMint params.investor false
            TOKEN_2022_PROGRAM_ID)
          settlementAgent.publicKey params.bondAmount 0 TOKEN_2022_PROGRAM_ID,
        Instruction.transferChecked
          (getAssociatedTokenAddress params.usdcMint params.investor false
            TOKEN_PROGRAM_ID)
          params.usdcMint
          (getAssociatedTokenAddress params.usdcMint params.issuer false
            TOKEN_PROGRAM_ID)
          settlementAgent.publicKey (params.usdcAmount * 10 ^ 6) 6
          TOKEN_PROGRAM_ID] ∧
    (executeDvP settlementAgent sig now params).1.signers =
      [settlementAgent.publicKey] := by
  exact ⟨rfl, rfl⟩

/-- C6: delegateAuthority submits exactly one delegate-approval directive,
naming the settlement agent as delegate with ceiling equal to the
human-scale amount multiplied by ten to the precision, signed by the
owning participant. -/
theorem delegateAuthority_single_approval (settlementAgent owner : Keypair)
    (tokenAccount : PublicKey) (amount decimals : Nat)
    (programId : PublicKey) :
    delegateAuthority settlementAgent owner tokenAccount amount decimals
        programId =
      [{ account := tokenAccount
         delegate := settlementAgent.publicKey
         owner := owner.publicKey
         amount := amount * 10 ^ decimals
         programId := programId
         signers := [owner.publicKey] }] := by
  rfl

/-- C9: on every non-exceptional return, executeDvP echoes the input bond
and currency quantities into the result and sets both settlement flags
unconditionally to true. -/
theorem executeDvP_result_flags (settlementAgent : Keypair) (sig now : Nat)
    (params : DvPParams) :
    (executeDvP settlementAgent sig now params).2 =
      { signature := sig
        bondAmount := params.bondAmount
        usdcAmount := params.usdcAmount
        timestamp := now
        bondsSent := true
        usdcReceived := true } := by
  rfl

/-- Fueled digit expansion (structurally recursive on the fuel, which
`natDigits` supplies generously enough to never run out). -/
def natDigitsAux : Nat → Nat → List Char
  | 0, _ => []
  | fuel + 1, n =>
      if n < 10 then [Char.ofNat (48 + n)]
      else natDigitsAux fuel (n / 10) ++ [Char.ofNat (48 + n % 10)]

/-- Modelled from the spec: digit expansion used by the host runtime's
renderings of numbers and dates (most significant digit first, base 10). -/
def natDigits (n : Nat) : List Char :=
  natDigitsAux (n + 1) n

theorem natDigitsAux_ne_nil (fuel n : Nat) :
    natDigitsAux (fuel + 1) n ≠ [] := by
  unfold natDigitsAux
  split
  · simp
  · simp

theorem natDigits_ne_nil (n : Nat) : natDigits n ≠ [] :=
  natDigitsAux_ne_nil n n

theorem stringMk_ne_empty {l : List Char} (h : l ≠ []) : String.mk l ≠ "" := by
  intro he
  exact h (congrArg String.data he)

/-- Modelled from the spec: the issuance configuration's coupon rate is a
numeric value of the host runtime; its rendering (`Number..toString`)
produces "NaN", a signed "Infinity", or a signed decimal string with a
nonempty integer part and optional fraction digits. -/
inductive JSNumber where
  | nan : JSNumber
  | inf (negative : Bool) : JSNumber
  | dec (negative : Bool) (intPart : Nat) (fracDigits : List Char) : JSNumber
deriving DecidableEq

def JSNumber.render : JSNumber → String
  | .nan => "NaN"
  | .inf negative => if negative then "-Infinity" else "Infinity"
  | .dec negative intPart fracDigits =>
      String.mk ((if negative then ['-'] else []) ++ natDigits intPart ++
        (if fracDigits = [] then [] else '.' :: fracDigits))

theorem JSNumber.render_ne_empty (q : JSNumber) : q.render ≠ "" := by
  cases q with
  | nan => decide
  | inf negative => cases negative <;> decide
  | dec negative intPart fracDigits =>
    apply stringMk_ne_empty
    simp [natDigits_ne_nil]

/-- Modelled from the spec: a calendar timestamp of the host runtime. -/
structure JSDate where
  year : Nat
  month : Nat
  day : Nat
  hour : Nat
  minute : Nat
  second : Nat
  millisecond : Nat
deriving DecidableEq

/-- Left-pad the digit expansion with zeros to the given width. -/
def padDigits (width : Nat) (n : Nat) : List Char :=
  List.replicate (width - (natDigits n).length) '0' ++ natDigits n

/-- Modelled from the spec: `Date..toISOString`, the ISO-8601 rendering
"YYYY-MM-DDTHH:mm:ss.sssZ". -/
def JSDate.toISOString (d : JSDate) : String :=
  String.mk (padDigits 4 d.year ++ '-' :: padDigits 2 d.month ++
    '-' :: padDigits 2 d.day ++ 'T' :: padDigits 2 d.hour ++
    ':' :: padDigits 2 d.minute ++ ':' :: padDigits 2 d.second ++
    '.' :: padDigits 3 d.millisecond ++ ['Z'])

theorem JSDate.toISOString_ne_empty (d : JSDate) : d.toISOString ≠ "" := by
  apply stringMk_ne_empty
  simp [padDigits]

/-- `BondTokenConfig` from `types.ts`.  `isin` and `description` are
optional; the numeric coupon rate and the maturity timestamp are host
values rendered on use. -/
structure BondTokenConfig where
  name : String
  symbol : String
  decimals : Nat
  maturityDate : JSDate
  couponRate : JSNumber
  isin : Option String
  description : Option String

/-- The metadata record the engine packs (`TokenMetadata` of the external
serializer). -/
structure TokenMetadata where
  mint : PublicKey
  name : String
  symbol : String
  uri : String
  additionalMetadata : List (String × String)
deriving DecidableEq

/-- Modelled from the spec: the external serializer's exact byte length
(`pack(metadata).length`) — update-authority and mint addresses at 32
bytes each, each string with a 4-byte length prefix, and the
key/value list with a 4-byte count prefix. -/
def packLen (m : TokenMetadata) : Nat :=
  32 + 32 + (4 + m.name.utf8ByteSize) + (4 + m.symbol.utf8ByteSize) +
    (4 + m.uri.utf8ByteSize) +
    (4 + (m.additionalMetadata.map
      (fun p => (4 + p.1.utf8ByteSize) + (4 + p.2.utf8ByteSize))).sum)

def TYPE_SIZE : Nat := 2

def LENGTH_SIZE : Nat := 2

/-- The account-configuration extensions the engine enables on the mint. -/
inductive ExtensionType where
  | defaultAccountState
  | metadataPointer
deriving DecidableEq

/-- Modelled from the spec: per-extension byte footprint (type + length
framing + payload) used by the external `getMintLen`. -/
def extensionLen : ExtensionType → Nat
  | .defaultAccountState => TYPE_SIZE + LENGTH_SIZE + 1
  | .metadataPointer => TYPE_SIZE + LENGTH_SIZE + 64

/-- Modelled from the spec: the external `getMintLen` — the padded base
mint record plus the enabled extensions' footprints. -/
def getMintLen (extensions : List ExtensionType) : Nat :=
  166 + (extensions.map extensionLen).sum

/-- The metadata record `createBondToken` constructs to size and populate
the on-chain metadata: name, symbol, URI from the description (empty when
absent), and the three open attributes. -/
def bondMetadata (mintKeypair : Keypair) (config : BondTokenConfig) :
    TokenMetadata :=
  { mint := mintKeypair.publicKey
    name := config.name
    symbol := config.symbol
    uri := config.description.getD ""
    additionalMetadata :=
      [("couponRate", config.couponRate.render),
        ("maturityDate", config.maturityDate.toISOString),
        ("isin", config.isin.getD "")] }

/-- `DvPEngine.createBondToken`: assembles, in order, the account
allocation (base space, full-footprint lamports from the external rent
query `rent`), metadata-pointer initialization, default-account-state
(frozen) initialization, mint initialization, metadata initialization,
and one field write per additional metadata entry with a non-empty value
(the host's string truthiness test); signs with the issuer, the fresh
mint keypair and the settlement agent. -/
def createBondToken (settlementAgent : Keypair) (rent : Nat → Nat)
    (mintKeypair : Keypair) (issuer : Keypair) (config : BondTokenConfig) :
    Transaction × PublicKey :=
  let metadata := bondMetadata mintKeypair config
  let metadataLen := packLen metadata
  let metadataExtension := TYPE_SIZE + LENGTH_SIZE
  let spaceWithoutMetadataExtension :=
    getMintLen [ExtensionType.defaultAccountState,
      ExtensionType.metadataPointer]
  let lamports :=
    rent (spaceWithoutMetadataExtension + metadataLen + metadataExtension)
  let baseInstructions : List Instruction :=
    [Instruction.createAccount issuer.publicKey mintKeypair.publicKey
        spaceWithoutMetadataExtension lamports TOKEN_2022_PROGRAM_ID,
      Instruction.initMetadataPointer mintKeypair.publicKey
        issuer.publicKey mintKeypair.publicKey TOKEN_2022_PROGRAM_ID,
      Instruction.initDefaultAccountState mintKeypair.publicKey
        AccountState.frozen TOKEN_2022_PROGRAM_ID,
      Instruction.initMint mintKeypair.publicKey config.decimals
        issuer.publicKey (some settlementAgent.publicKey)
        TOKEN_2022_PROGRAM_ID,
      Instruction.initMetadata TOKEN_2022_PROGRAM_ID
        mintKeypair.publicKey mintKeypair.publicKey config.name
        config.symbol (config.description.getD "") issuer.publicKey
        settlementAgent.publicKey]
  let fieldWrites : List Instruction :=
    (metadata.additionalMetadata.filter (fun p => p.2 ≠ "")).map
      (fun p => Instruction.updateField TOKEN_2022_PROGRAM_ID
        mintKeypair.publicKey settlementAgent.publicKey p.1 p.2)
  ({ instructions := baseInstructions ++ fieldWrites
     signers :=
       [issuer.publicKey, mintKeypair.publicKey,
         settlementAgent.publicKey] },
  mintKeypair.publicKey)

/-- Shorthand for the field-write instructions emitted by
`createBondToken` (one per additional metadata entry with a non-empty
value). -/
def bondFieldWrites (settlementAgent : Keypair) (mintKeypair : Keypair)
    (config : BondTokenConfig) : List Instruction :=
  ((bondMetadata mintKeypair config).additionalMetadata.filter
      (fun p => p.2 ≠ "")).map
    (fun p => Instruction.updateField TOKEN_2022_PROGRAM_ID
      mintKeypair.publicKey settlementAgent.publicKey p.1 p.2)

theorem createBondToken_instructions_eq (settlementAgent : Keypair)
    (rent : Nat → Nat) (mintKeypair issuer : Keypair)
    (config : BondTokenConfig) :
    (createBondToken settlementAgent rent mintKeypair issuer
        config).1.instructions =
      [Instruction.createAccount issuer.publicKey mintKeypair.publicKey
          (getMintLen [ExtensionType.defaultAccountState,
            ExtensionType.metadataPointer])
          (rent (getMintLen [ExtensionType.defaultAccountState,
              ExtensionType.metadataPointer] +
            packLen (bondMetadata mintKeypair config) +
            (TYPE_SIZE + LENGTH_SIZE)))
          TOKEN_2022_PROGRAM_ID,
        Instruction.initMetadataPointer mintKeypair.publicKey
          issuer.publicKey mintKeypair.publicKey TOKEN_2022_PROGRAM_ID,
        Instruction.initDefaultAccountState mintKeypair.publicKey
          AccountState.frozen TOKEN_2022_PROGRAM_ID,
        Instruction.initMint mintKeypair.publicKey config.decimals
          issuer.publicKey (some settlementAgent.publicKey)
          TOKEN_2022_PROGRAM_ID,
        Instruction.initMetadata TOKEN_2022_PROGRAM_ID
          mintKeypair.publicKey mintKeypair.publicKey config.name
          config.symbol (config.description.getD "") issuer.publicKey
          settlementAgent.publicKey] ++
      bondFieldWrites settlementAgent mintKeypair config := rfl

theorem updateField_mem_createBondToken (settlementAgent : Keypair)
    (rent : Nat → Nat) (mintKeypair issuer : Keypair)
    (config : BondTokenConfig) (f v : String) :
    Instruction.updateField TOKEN_2022_PROGRAM_ID mintKeypair.publicKey
        settlementAgent.publicKey f v ∈
      (createBondToken settlementAgent rent mintKeypair issuer
        config).1.instructions ↔
    ((f, v) ∈ (bondMetadata mintKeypair config).additionalMetadata ∧
      v ≠ "") := by
  rw [createBondToken_instructions_eq]
  simp only [bondFieldWrites, List.mem_append, List.mem_cons,
    List.not_mem_nil, or_false, List.mem_map, List.mem_filter,
    decide_eq_true_eq]
  constructor
  · intro h
    rcases h with h | h
    · rcases h with h | h | h | h | h <;> exact Instruction.noConfusion h
    · obtain ⟨p, ⟨hmem, hne⟩, heq⟩ := h
      obtain ⟨-, -, -, hf, hv⟩ := Instruction.updateField.inj heq
      have hp : p = (f, v) := Prod.ext hf hv
      rw [hp] at hmem hne
      exact ⟨hmem, hne⟩
  · intro h
    exact Or.inr ⟨(f, v), ⟨h.1, h.2⟩, rfl⟩

/-- C2: createBondToken funds the account-allocation directive with the
external rent query's minimum balance for the full footprint (base mint
length plus exact metadata length plus the 4-byte type-and-length
framing), while allocating only the base footprint; the reserved lamports
are therefore at least the minimum balance for an account of exactly that
full size, for every configuration. -/
theorem createBondToken_rent_full_footprint (settlementAgent : Keypair)
    (rent : Nat → Nat) (mintKeypair issuer : Keypair)
    (config : BondTokenConfig) :
    (createBondToken settlementAgent rent mintKeypair issuer
        config).1.instructions.head? =
      some (Instruction.createAccount issuer.publicKey mintKeypair.publicKey
        (getMintLen [ExtensionType.defaultAccountState,
          ExtensionType.metadataPointer])
        (rent (getMintLen [ExtensionType.defaultAccountState,
            ExtensionType.metadataPointer] +
          packLen (bondMetadata mintKeypair config) +
          (TYPE_SIZE + LENGTH_SIZE)))
        TOKEN_2022_PROGRAM_ID) ∧
    rent (getMintLen [ExtensionType.defaultAccountState,
        ExtensionType.metadataPointer] +
      packLen (bondMetadata mintKeypair config) +
      (TYPE_SIZE + LENGTH_SIZE)) ≥
    rent (getMintLen [ExtensionType.defaultAccountState,
        ExtensionType.metadataPointer] +
      packLen (bondMetadata mintKeypair config) +
      (TYPE_SIZE + LENGTH_SIZE)) := by
  exact ⟨rfl, le_refl _⟩

/-- C4: createBondToken assembles its single transaction in strict order —
account allocation, metadata-pointer initialization,
default-account-state (frozen) initialization, mint initialization,
metadata initialization, then one field write per non-empty open
attribute; in particular the metadata-pointer initialization sits at
index 1 and the mint initialization at index 3. -/
theorem createBondToken_strict_order (settlementAgent : Keypair)
    (rent : Nat → Nat) (mintKeypair issuer : Keypair)
    (config : BondTokenConfig) :
    (createBondToken settlementAgent rent mintKeypair issuer
        config).1.instructions =
      [Instruction.createAccount issuer.publicKey mintKeypair.publicKey
          (getMintLen [ExtensionType.defaultAccountState,
            ExtensionType.metadataPointer])
          (rent (getMintLen [ExtensionType.defaultAccountState,
              ExtensionType.metadataPointer] +
            packLen (bondMetadata mintKeypair config) +
            (TYPE_SIZE + LENGTH_SIZE)))
          TOKEN_2022_PROGRAM_ID,
        Instruction.initMetadataPointer mintKeypair.publicKey
          issuer.publicKey mintKeypair.publicKey TOKEN_2022_PROGRAM_ID,
        Instruction.initDefaultAccountState mintKeypair.publicKey
          AccountState.frozen TOKEN_2022_PROGRAM_ID,
        Instruction.initMint mintKeypair.publicKey config.decimals
          issuer.publicKey (some settlementAgent.publicKey)
          TOKEN_2022_PROGRAM_ID,
        Instruction.initMetadata TOKEN_2022_PROGRAM_ID
          mintKeypair.publicKey mintKeypair.publicKey config.name
          config.symbol (config.description.getD "") issuer.publicKey
          settlementAgent.publicKey] ++
      bondFieldWrites settlementAgent mintKeypair config ∧
    (createBondToken settlementAgent rent mintKeypair issuer
        config).1.instructions[1]? =
      some (Instruction.initMetadataPointer mintKeypair.publicKey
        issuer.publicKey mintKeypair.publicKey TOKEN_2022_PROGRAM_ID) ∧
    (createBondToken settlementAgent rent mintKeypair issuer
        config).1.instructions[3]? =
      some (Instruction.initMint mintKeypair.publicKey config.decimals
        issuer.publicKey (some settlementAgent.publicKey)
        TOKEN_2022_PROGRAM_ID) := by
  exact ⟨rfl, rfl, rfl⟩

/-- C5: createBondToken assigns the mint authority to the issuer, the
freeze authority and the metadata-update authority to the settlement
agent, and submits the transaction with signer list issuer, fresh mint
keypair, settlement agent — so the issuer and the fresh asset identity
always sign, and the update authority signs too, in particular whenever
it differs from the issuer. -/
theorem createBondToken_authorities (settlementAgent : Keypair)
    (rent : Nat → Nat) (mintKeypair issuer : Keypair)
    (config : BondTokenConfig) :
    Instruction.initMint mintKeypair.publicKey config.decimals
        issuer.publicKey (some settlementAgent.publicKey)
        TOKEN_2022_PROGRAM_ID ∈
      (createBondToken settlementAgent rent mintKeypair issuer
        config).1.instructions ∧
    Instruction.initMetadata TOKEN_2022_PROGRAM_ID mintKeypair.publicKey
        mintKeypair.publicKey config.name config.symbol
        (config.description.getD "") issuer.publicKey
        settlementAgent.publicKey ∈
      (createBondToken settlementAgent rent mintKeypair issuer
        config).1.instructions ∧
    (createBondToken settlementAgent rent mintKeypair issuer
        config).1.signers =
      [issuer.publicKey, mintKeypair.publicKey,
        settlementAgent.publicKey] ∧
    issuer.publicKey ∈
      (createBondToken settlementAgent rent mintKeypair issuer
        config).1.signers ∧
    mintKeypair.publicKey ∈
      (createBondToken settlementAgent rent mintKeypair issuer
        config).1.signers ∧
    (settlementAgent.publicKey ≠ issuer.publicKey →
      settlementAgent.publicKey ∈
        (createBondToken settlementAgent rent mintKeypair issuer
          config).1.signers) := by
  refine ⟨?_, ?_, rfl, ?_, ?_, fun _ => ?_⟩
  · rw [createBondToken_instructions_eq]
    simp
  · rw [createBondToken_instructions_eq]
    simp
  · simp [createBondToken]
  · simp [createBondToken]
  · simp [createBondToken]

/-- C7: in createBondToken a field-write directive for an open attribute
is part of the transaction exactly when the attribute's rendered string
value is non-empty; an empty value is silently omitted, never written as
an empty string. -/
theorem createBondToken_skips_empty_fields (settlementAgent : Keypair)
    (rent : Nat → Nat) (mintKeypair issuer : Keypair)
    (config : BondTokenConfig) :
    (∀ f v : String,
      Instruction.updateField TOKEN_2022_PROGRAM_ID mintKeypair.publicKey
          settlementAgent.publicKey f v ∈
        (createBondToken settlementAgent rent mintKeypair issuer
          config).1.instructions ↔
      ((f, v) ∈ (bondMetadata mintKeypair config).additionalMetadata ∧
        v ≠ "")) ∧
    (∀ f : String,
      Instruction.updateField TOKEN_2022_PROGRAM_ID mintKeypair.publicKey
          settlementAgent.publicKey f "" ∉
        (createBondToken settlementAgent rent mintKeypair issuer
          config).1.instructions) := by
  refine ⟨fun f v => updateField_mem_createBondToken settlementAgent rent
    mintKeypair issuer config f v, fun f hmem => ?_⟩
  have h := (updateField_mem_createBondToken settlementAgent rent
    mintKeypair issuer config f "").mp hmem
  exact h.2 rfl

/-- The key/value pairs actually written on-chain by a transaction's
field-write directives, in order. -/
def writtenAdditionalMetadata (instructions : List Instruction) :
    List (String × String) :=
  instructions.filterMap fun i =>
    match i with
    | .updateField _ _ _ f v => some (f, v)
    | _ => none

/-- The fixed metadata fields actually written on-chain by a
transaction's metadata-initialization directive (metadata address, name,
symbol, URI), if any. -/
def writtenBaseMetadata (instructions : List Instruction) :
    Option (PublicKey × String × String × String) :=
  instructions.findSome? fun i =>
    match i with
    | .initMetadata _ _ metadata name symbol uri _ _ =>
        some (metadata, name, symbol, uri)
    | _ => none

/-- The metadata record a transaction actually materializes on-chain:
the initialized fixed fields plus the field-written key/value pairs. -/
def writtenMetadata (tx : Transaction) : TokenMetadata :=
  match writtenBaseMetadata tx.instructions with
  | some (metadata, name, symbol, uri) =>
      { mint := metadata
        name := name
        symbol := symbol
        uri := uri
        additionalMetadata := writtenAdditionalMetadata tx.instructions }
  | none =>
      { mint := PublicKey.fresh 0
        name := ""
        symbol := ""
        uri := ""
        additionalMetadata := writtenAdditionalMetadata tx.instructions }

theorem sum_map_filter_le {α : Type} (f : α → Nat) (p : α → Bool)
    (l : List α) : ((l.filter p).map f).sum ≤ (l.map f).sum := by
  induction l with
  | nil => simp
  | cons a t ih =>
    cases hpa : p a
    · simp [List.filter_cons, hpa]
      omega
    · simp [List.filter_cons, hpa]
      omega

theorem writtenAdditionalMetadata_createBondToken (settlementAgent : Keypair)
    (rent : Nat → Nat) (mintKeypair issuer : Keypair)
    (config : BondTokenConfig) :
    writtenAdditionalMetadata (createBondToken settlementAgent rent
        mintKeypair issuer config).1.instructions =
      (bondMetadata mintKeypair config).additionalMetadata.filter
        (fun p => p.2 ≠ "") := by
  rw [createBondToken_instructions_eq]
  simp only [writtenAdditionalMetadata, bondFieldWrites,
    List.filterMap_append, List.filterMap_map]
  have hbase : ∀ l : List (String × String),
      List.filterMap
        ((fun i =>
          match i with
          | Instruction.updateField _ _ _ f v => some (f, v)
          | _ => none) ∘
          fun p => Instruction.updateField TOKEN_2022_PROGRAM_ID
            mintKeypair.publicKey settlementAgent.publicKey p.1 p.2) l =
        l := by
    intro l
    induction l with
    | nil => rfl
    | cons a t ih => simp [List.filterMap_cons, ih]
  rw [hbase]
  rfl

theorem writtenMetadata_createBondToken (settlementAgent : Keypair)
    (rent : Nat → Nat) (mintKeypair issuer : Keypair)
    (config : BondTokenConfig) :
    writtenMetadata (createBondToken settlementAgent rent mintKeypair
        issuer config).1 =
      { mint := mintKeypair.publicKey
        name := config.name
        symbol := config.symbol
        uri := config.description.getD ""
        additionalMetadata :=
          (bondMetadata mintKeypair config).additionalMetadata.filter
            (fun p => p.2 ≠ "") } := by
  have hw := writtenAdditionalMetadata_createBondToken settlementAgent rent
    mintKeypair issuer config
  have hb : writtenBaseMetadata (createBondToken settlementAgent rent
      mintKeypair issuer config).1.instructions =
      some (mintKeypair.publicKey, config.name, config.symbol,
        config.description.getD "") := by
    rw [createBondToken_instructions_eq]
    rfl
  simp [writtenMetadata, hb, hw]

/-- C10: the metadata record createBondToken packs for sizing always
carries all three open attributes (the isin with an empty value when
absent), while field writes are emitted only for non-empty values; the
coupon-rate and maturity-date writes are always present since the
runtime's number rendering and ISO-8601 rendering are never empty, only
the isin write can be omitted, and the packed byte length used for rent
reservation dominates the byte length of the metadata actually written. -/
theorem createBondToken_sizing_dominates_written (settlementAgent : Keypair)
    (rent : Nat → Nat) (mintKeypair issuer : Keypair)
    (config : BondTokenConfig) :
    (bondMetadata mintKeypair config).additionalMetadata =
      [("couponRate", config.couponRate.render),
        ("maturityDate", config.maturityDate.toISOString),
        ("isin", config.isin.getD "")] ∧
    Instruction.updateField TOKEN_2022_PROGRAM_ID mintKeypair.publicKey
        settlementAgent.publicKey "couponRate" config.couponRate.render ∈
      (createBondToken settlementAgent rent mintKeypair issuer
        config).1.instructions ∧
    Instruction.updateField TOKEN_2022_PROGRAM_ID mintKeypair.publicKey
        settlementAgent.publicKey "maturityDate"
        config.maturityDate.toISOString ∈
      (createBondToken settlementAgent rent mintKeypair issuer
        config).1.instructions ∧
    writtenAdditionalMetadata (createBondToken settlementAgent rent
        mintKeypair issuer config).1.instructions =
      (bondMetadata mintKeypair config).additionalMetadata.filter
        (fun p => p.2 ≠ "") ∧
    packLen (writtenMetadata (createBondToken settlementAgent rent
        mintKeypair issuer config).1) ≤
      packLen (bondMetadata mintKeypair config) := by
  refine ⟨rfl, ?_, ?_, writtenAdditionalMetadata_createBondToken
    settlementAgent rent mintKeypair issuer config, ?_⟩
  · exact (updateField_mem_createBondToken settlementAgent rent mintKeypair
      issuer config "couponRate" config.couponRate.render).mpr
      ⟨by simp [bondMetadata], JSNumber.render_ne_empty config.couponRate⟩
  · exact (updateField_mem_createBondToken settlementAgent rent mintKeypair
      issuer config "maturityDate" config.maturityDate.toISOString).mpr
      ⟨by simp [bondMetadata], JSDate.toISOString_ne_empty
        config.maturityDate⟩
  · rw [writtenMetadata_createBondToken]
    have hsum := sum_map_filter_le
      (fun p : String × String =>
        (4 + p.1.utf8ByteSize) + (4 + p.2.utf8ByteSize))
      (fun p => p.2 ≠ "")
      (bondMetadata mintKeypair config).additionalMetadata
    simp only [packLen, bondMetadata] at hsum ⊢
    omega

/-- The ledger state the gating operations touch: which holding accounts
exist and whether each is frozen (address keyed). -/
structure Ledger where
  accounts : List (PublicKey × Bool)
deriving DecidableEq

def lookupAcct : List (PublicKey × Bool) → PublicKey → Option Bool
  | [], _ => none
  | (k, v) :: rest, a => if k = a then some v else lookupAcct rest a

def setAcct : List (PublicKey × Bool) → PublicKey → Bool → List (PublicKey × Bool)
  | [], _, _ => []
  | (k, v) :: rest, a, b =>
      if k = a then (k, b) :: rest else (k, v) :: setAcct rest a b

/-- The freeze/thaw and account-creation calls the gating operations
submit against the external engine. -/
inductive GateAction where
  | createAccount (address : PublicKey)
  | thaw (address : PublicKey) (mint : PublicKey) (authority : PublicKey)
  | freeze (address : PublicKey) (mint : PublicKey) (authority : PublicKey)
deriving DecidableEq

/-- Modelled from the spec: `getOrCreateAssociatedTokenAccount` of the
external library — returns the existing holding account at the derived
address, or creates one whose frozen flag follows the mint's
default-account-state policy (`defaultFrozen`, true for bonds created by
`createBondToken`). -/
def getOrCreateAssociatedTokenAccount (defaultFrozen : Bool) (L : Ledger)
    (mint : PublicKey) (owner : PublicKey) :
    (PublicKey × Bool) × List GateAction × Ledger :=
  let address := getAssociatedTokenAddress mint owner false
    TOKEN_2022_PROGRAM_ID
  match lookupAcct L.accounts address with
  | some frozen => ((address, frozen), [], L)
  | none =>
      ((address, defaultFrozen), [GateAction.createAccount address],
        ⟨(address, defaultFrozen) :: L.accounts⟩)

/-- Result of `whitelist`: the holding-account address it returns, the
state-changing calls it made, and the resulting ledger. -/
structure WhitelistResult where
  address : PublicKey
  actions : List GateAction
  ledger : Ledger
deriving DecidableEq

/-- `DvPEngine.whitelist`: gets or creates the participant's holding
account, thaws it (signed by the settlement agent, the gating authority)
only when it is frozen, and returns its address in all cases. -/
def whitelist (settlementAgent : Keypair) (defaultFrozen : Bool)
    (L : Ledger) (bondMint : PublicKey) (participant : PublicKey) :
    WhitelistResult :=
  let r := getOrCreateAssociatedTokenAccount defaultFrozen L bondMint
    participant
  let bondAccount := r.1
  if bondAccount.2 then
    { address := bondAccount.1
      actions := r.2.1 ++
        [GateAction.thaw bondAccount.1 bondMint settlementAgent.publicKey]
      ledger := ⟨setAcct r.2.2.accounts bondAccount.1 false⟩ }
  else
    { address := bondAccount.1
      actions := r.2.1
      ledger := r.2.2 }

/-- `DvPEngine.removeFromWhitelist`: submits one freeze call signed by
the settlement agent, with no check of the account's current state. -/
def removeFromWhitelist (settlementAgent : Keypair) (L : Ledger)
    (bondMint : PublicKey) (investorBondAccount : PublicKey) :
    List GateAction × Ledger :=
  ([GateAction.freeze investorBondAccount bondMint
      settlementAgent.publicKey],
    ⟨setAcct L.accounts investorBondAccount true⟩)

/-- Modelled from the spec: the external engine rejects any direct
(non-delegated) outgoing transfer from a holding account that is missing
or frozen. -/
def directTransferAllowed (L : Ledger) (source : PublicKey) : Bool :=
  match lookupAcct L.accounts source with
  | some frozen => !frozen
  | none => false

theorem lookupAcct_setAcct_self (l : List (PublicKey × Bool))
    (a : PublicKey) (b c : Bool) (h : lookupAcct l a = some b) :
    lookupAcct (setAcct l a c) a = some c := by
  induction l with
  | nil => cases h
  | cons kv rest ih =>
    obtain ⟨k, v⟩ := kv
    by_cases hk : k = a
    · simp [setAcct, lookupAcct, hk]
    · simp only [lookupAcct, hk, if_false] at h
      simp only [setAcct, hk, if_false, lookupAcct]
      exact ih h

theorem whitelist_address_eq (settlementAgent : Keypair)
    (defaultFrozen : Bool) (L : Ledger) (bondMint participant : PublicKey) :
    (whitelist settlementAgent defaultFrozen L bondMint
        participant).address =
      getAssociatedTokenAddress bondMint participant false
        TOKEN_2022_PROGRAM_ID := by
  unfold whitelist getOrCreateAssociatedTokenAccount
  cases hl : lookupAcct L.accounts
      (getAssociatedTokenAddress bondMint participant false
        TOKEN_2022_PROGRAM_ID) with
  | none => cases defaultFrozen <;> simp [hl]
  | some frozen => cases frozen <;> simp [hl]

theorem whitelist_noop_of_thawed (settlementAgent : Keypair)
    (defaultFrozen : Bool) (L : Ledger) (bondMint participant : PublicKey)
    (h : lookupAcct L.accounts
      (getAssociatedTokenAddress bondMint participant false
        TOKEN_2022_PROGRAM_ID) = some false) :
    whitelist settlementAgent defaultFrozen L bondMint participant =
      { address := getAssociatedTokenAddress bondMint participant false
          TOKEN_2022_PROGRAM_ID
        actions := []
        ledger := L } := by
  unfold whitelist getOrCreateAssociatedTokenAccount
  simp [h]

theorem whitelist_thaw_of_frozen (settlementAgent : Keypair)
    (defaultFrozen : Bool) (L : Ledger) (bondMint participant : PublicKey)
    (h : lookupAcct L.accounts
      (getAssociatedTokenAddress bondMint participant false
        TOKEN_2022_PROGRAM_ID) = some true) :
    whitelist settlementAgent defaultFrozen L bondMint participant =
      { address := getAssociatedTokenAddress bondMint participant false
          TOKEN_2022_PROGRAM_ID
        actions := [GateAction.thaw
          (getAssociatedTokenAddress bondMint participant false
            TOKEN_2022_PROGRAM_ID) bondMint settlementAgent.publicKey]
        ledger := ⟨setAcct L.accounts
          (getAssociatedTokenAddress bondMint participant false
            TOKEN_2022_PROGRAM_ID) false⟩ } := by
  unfold whitelist getOrCreateAssociatedTokenAccount
  simp [h]

theorem whitelist_create_of_missing (settlementAgent : Keypair)
    (L : Ledger) (bondMint participant : PublicKey)
    (h : lookupAcct L.accounts
      (getAssociatedTokenAddress bondMint participant false
        TOKEN_2022_PROGRAM_ID) = none) :
    whitelist settlementAgent true L bondMint participant =
      { address := getAssociatedTokenAddress bondMint participant false
          TOKEN_2022_PROGRAM_ID
        actions := [GateAction.createAccount
            (getAssociatedTokenAddress bondMint participant false
              TOKEN_2022_PROGRAM_ID),
          GateAction.thaw
            (getAssociatedTokenAddress bondMint participant false
              TOKEN_2022_PROGRAM_ID) bondMint settlementAgent.publicKey]
        ledger := ⟨setAcct
          ((getAssociatedTokenAddress bondMint participant false
              TOKEN_2022_PROGRAM_ID, true) :: L.accounts)
          (getAssociatedTokenAddress bondMint participant false
            TOKEN_2022_PROGRAM_ID) false⟩ } := by
  unfold whitelist getOrCreateAssociatedTokenAccount
  simp [h]

theorem whitelist_lookup_after (settlementAgent : Keypair)
    (defaultFrozen : Bool) (L : Ledger) (bondMint participant : PublicKey) :
    lookupAcct (whitelist settlementAgent defaultFrozen L bondMint
        participant).ledger.accounts
      (getAssociatedTokenAddress bondMint participant false
        TOKEN_2022_PROGRAM_ID) = some false := by
  unfold whitelist getOrCreateAssociatedTokenAccount
  cases hl : lookupAcct L.accounts
      (getAssociatedTokenAddress bondMint participant false
        TOKEN_2022_PROGRAM_ID) with
  | none =>
    cases defaultFrozen
    · simp [hl, lookupAcct]
    · simp [hl, setAcct, lookupAcct]
  | some frozen =>
    cases frozen
    · simp [hl]
    · simp [hl]
      exact lookupAcct_setAcct_self L.accounts _ true false hl

/-- C3: whitelist is idempotent — it creates the holding account when
missing (frozen by default, per the bond mint's frozen
default-account-state policy), issues exactly one settlement-agent-signed
thaw when the account exists frozen, performs no freeze/thaw change when
already thawed, always returns the derived holding-account address, and a
second consecutive call performs no freeze/thaw state change, leaves the
ledger unchanged and returns the same address. -/
theorem whitelist_idempotent (settlementAgent : Keypair)
    (defaultFrozen : Bool) (L : Ledger) (bondMint participant : PublicKey) :
    (whitelist settlementAgent defaultFrozen L bondMint
        participant).address =
      getAssociatedTokenAddress bondMint participant false
        TOKEN_2022_PROGRAM_ID ∧
    (lookupAcct L.accounts
        (getAssociatedTokenAddress bondMint participant false
          TOKEN_2022_PROGRAM_ID) = none →
      defaultFrozen = true →
      (whitelist settlementAgent defaultFrozen L bondMint
          participant).actions =
        [GateAction.createAccount
            (getAssociatedTokenAddress bondMint participant false
              TOKEN_2022_PROGRAM_ID),
          GateAction.thaw
            (getAssociatedTokenAddress bondMint participant false
              TOKEN_2022_PROGRAM_ID) bondMint
            settlementAgent.publicKey]) ∧
    (lookupAcct L.accounts
        (getAssociatedTokenAddress bondMint participant false
          TOKEN_2022_PROGRAM_ID) = some true →
      (whitelist settlementAgent defaultFrozen L bondMint
          participant).actions =
        [GateAction.thaw
          (getAssociatedTokenAddress bondMint participant false
            TOKEN_2022_PROGRAM_ID) bondMint settlementAgent.publicKey]) ∧
    (lookupAcct L.accounts
        (getAssociatedTokenAddress bondMint participant false
          TOKEN_2022_PROGRAM_ID) = some false →
      (whitelist settlementAgent defaultFrozen L bondMint
          participant).actions = [] ∧
      (whitelist settlementAgent defaultFrozen L bondMint
          participant).ledger = L) ∧
    (whitelist settlementAgent defaultFrozen
        (whitelist settlementAgent defaultFrozen L bondMint
          participant).ledger bondMint participant).address =
      (whitelist settlementAgent defaultFrozen L bondMint
        participant).address ∧
    (whitelist settlementAgent defaultFrozen
        (whitelist settlementAgent defaultFrozen L bondMint
          participant).ledger bondMint participant).actions = [] ∧
    (whitelist settlementAgent defaultFrozen
        (whitelist settlementAgent defaultFrozen L bondMint
          participant).ledger bondMint participant).ledger =
      (whitelist settlementAgent defaultFrozen L bondMint
        participant).ledger := by
  have hsecond := whitelist_noop_of_thawed settlementAgent defaultFrozen
    (whitelist settlementAgent defaultFrozen L bondMint participant).ledger
    bondMint participant
    (whitelist_lookup_after settlementAgent defaultFrozen L bondMint
      participant)
  refine ⟨whitelist_address_eq settlementAgent defaultFrozen L bondMint
      participant, ?_, ?_, ?_, ?_, ?_, ?_⟩
  · intro hnone hdf
    rw [hdf, whitelist_create_of_missing settlementAgent L bondMint
      participant hnone]
  · intro hfrozen
    rw [whitelist_thaw_of_frozen settlementAgent defaultFrozen L bondMint
      participant hfrozen]
  · intro hthawed
    rw [whitelist_noop_of_thawed settlementAgent defaultFrozen L bondMint
      participant hthawed]
    exact ⟨rfl, rfl⟩
  · rw [hsecond, whitelist_address_eq settlementAgent defaultFrozen L
      bondMint participant]
  · rw [hsecond]
  · rw [hsecond]

/-- C8: removeFromWhitelist submits exactly one freeze directive signed
by the settlement agent, with no check of the account's current frozen
state; once it succeeds the account is frozen, so a direct
(non-delegated) outgoing transfer from that account is rejected. -/
theorem removeFromWhitelist_unconditional_freeze (settlementAgent : Keypair)
    (L : Ledger) (bondMint investorBondAccount : PublicKey) :
    (removeFromWhitelist settlementAgent L bondMint
        investorBondAccount).1 =
      [GateAction.freeze investorBondAccount bondMint
        settlementAgent.publicKey] ∧
    (∀ b : Bool, lookupAcct L.accounts investorBondAccount = some b →
      lookupAcct (removeFromWhitelist settlementAgent L bondMint
          investorBondAccount).2.accounts investorBondAccount =
        some true ∧
      directTransferAllowed (removeFromWhitelist settlementAgent L bondMint
          investorBondAccount).2 investorBondAccount = false) := by
  refine ⟨rfl, fun b h => ?_⟩
  have h2 : lookupAcct (removeFromWhitelist settlementAgent L bondMint
      investorBondAccount).2.accounts investorBondAccount = some true :=
    lookupAcct_setAcct_self L.accounts investorBondAccount b true h
  refine ⟨h2, ?_⟩
  unfold directTransferAllowed
  rw [h2]
  rfl

/-- A concrete issuance configuration used by the closed witnesses. -/
def sampleConfig : BondTokenConfig :=
  { name := "Corporate Bond 2030"
    symbol := "BOND30"
    decimals := 0
    maturityDate :=
      { year := 2030, month := 12, day := 31, hour := 0, minute := 0,
        second := 0, millisecond := 0 }
    couponRate := JSNumber.dec false 5 ['5']
    isin := some "US0000000001"
    description := none }

theorem whitelist_idempotent_witness :
    (whitelist ⟨PublicKey.fresh 2⟩ true ⟨[]⟩ (PublicKey.fresh 5)
        (PublicKey.fresh 6)).actions =
      [GateAction.createAccount
          (getAssociatedTokenAddress (PublicKey.fresh 5) (PublicKey.fresh 6)
            false TOKEN_2022_PROGRAM_ID),
        GateAction.thaw
          (getAssociatedTokenAddress (PublicKey.fresh 5) (PublicKey.fresh 6)
            false TOKEN_2022_PROGRAM_ID) (PublicKey.fresh 5)
          (PublicKey.fresh 2)] ∧
    (whitelist ⟨PublicKey.fresh 2⟩ true
        (whitelist ⟨PublicKey.fresh 2⟩ true ⟨[]⟩ (PublicKey.fresh 5)
          (PublicKey.fresh 6)).ledger (PublicKey.fresh 5)
        (PublicKey.fresh 6)).actions = [] := by
  have h := whitelist_idempotent ⟨PublicKey.fresh 2⟩ true ⟨[]⟩
    (PublicKey.fresh 5) (PublicKey.fresh 6)
  exact ⟨h.2.1 rfl rfl, h.2.2.2.2.2.1⟩

theorem createBondToken_authorities_witness :
    PublicKey.fresh 2 ≠ PublicKey.fresh 3 ∧
    PublicKey.fresh 2 ∈
      (createBondToken ⟨PublicKey.fresh 2⟩ (fun n => n) ⟨PublicKey.fresh 4⟩
        ⟨PublicKey.fresh 3⟩ sampleConfig).1.signers := by
  have h := createBondToken_authorities ⟨PublicKey.fresh 2⟩ (fun n => n)
    ⟨PublicKey.fresh 4⟩ ⟨PublicKey.fresh 3⟩ sampleConfig
  exact ⟨by decide, h.2.2.2.2.2 (by decide)⟩

theorem createBondToken_skips_empty_fields_witness :
    Instruction.updateField TOKEN_2022_PROGRAM_ID (PublicKey.fresh 4)
        (PublicKey.fresh 2) "isin" "US0000000001" ∈
      (createBondToken ⟨PublicKey.fresh 2⟩ (fun n => n) ⟨PublicKey.fresh 4⟩
        ⟨PublicKey.fresh 3⟩ sampleConfig).1.instructions ∧
    Instruction.updateField TOKEN_2022_PROGRAM_ID (PublicKey.fresh 4)
        (PublicKey.fresh 2) "isin" "" ∉
      (createBondToken ⟨PublicKey.fresh 2⟩ (fun n => n) ⟨PublicKey.fresh 4⟩
        ⟨PublicKey.fresh 3⟩ sampleConfig).1.instructions := by
  have h := createBondToken_skips_empty_fields ⟨PublicKey.fresh 2⟩
    (fun n => n) ⟨PublicKey.fresh 4⟩ ⟨PublicKey.fresh 3⟩ sampleConfig
  constructor
  · exact (h.1 "isin" "US0000000001").mpr
      ⟨List.mem_cons_of_mem _ (List.mem_cons_of_mem _
        (List.mem_cons_self _ _)), by decide⟩
  · exact h.2 "isin"

theorem removeFromWhitelist_unconditional_freeze_witness :
    (removeFromWhitelist ⟨PublicKey.fresh 2⟩ ⟨[(PublicKey.fresh 7, false)]⟩
        (PublicKey.fresh 5) (PublicKey.fresh 7)).1 =
      [GateAction.freeze (PublicKey.fresh 7) (PublicKey.fresh 5)
        (PublicKey.fresh 2)] ∧
    directTransferAllowed
      (removeFromWhitelist ⟨PublicKey.fresh 2⟩
        ⟨[(PublicKey.fresh 7, false)]⟩ (PublicKey.fresh 5)
        (PublicKey.fresh 7)).2 (PublicKey.fresh 7) = false := by
  have h := removeFromWhitelist_unconditional_freeze ⟨PublicKey.fresh 2⟩
    ⟨[(PublicKey.fresh 7, false)]⟩ (PublicKey.fresh 5) (PublicKey.fresh 7)
  exact ⟨h.1, (h.2 false (by decide)).2⟩
